import Mathlib

/-!
Verification of the vntrialmatch target-identification pipeline.

Shallow embedding of:
  * `src/utils/cache_manager.py`   (`CacheManager`)
  * `src/core/target_identification/keyword_extraction.py` (`KeywordExtractor`)
  * `src/core/target_identification/keyword_enrichment.py` (`KeywordEnricher`)
  * `src/core/target_identification/search.py` (`ClinicalTrialSearcher`)

Modelling conventions:
  * Python `str` is Lean `String`; Python byte strings are `List Nat` (each < 256).
  * Python dicts are association lists `List (String × _)` with insertion-order
    update semantics (`dictSet` overwrites in place, appends when fresh).
  * Timestamps are rationals; `datetime.now() - ts < timedelta(days=max_age_days)`
    becomes `now - ts < maxAge` over ℚ.
  * JSON values decoded by `json.loads` are the inductive `JVal`; the stdlib
    parser itself is not part of the repository, so a decode outcome is passed
    in as `Option JVal` (`none` = `JSONDecodeError`).
  * External I/O (Elasticsearch, the LLM) is passed in as explicit parameters.
-/

/-! ## SHA-256 over byte lists (hashlib.sha256(...).hexdigest()) -/

/-- Modulus for 32-bit words. -/
def M32 : Nat := 2 ^ 32

/-- Rotate a 32-bit word right by `n` bits. -/
def rotr32 (n x : Nat) : Nat := ((x / 2 ^ n) + (x % 2 ^ n) * 2 ^ (32 - n)) % M32

/-- Bitwise complement within 32 bits. -/
def not32 (x : Nat) : Nat := 0xffffffff ^^^ x

/-- SHA-256 round constants (FIPS 180-4), written in decimal. -/
def K256 : List Nat :=
  [1116352408, 1899447441, 3049323471, 3921009573, 961987163,
   1508970993, 2453635748, 2870763221, 3624381080, 310598401,
   607225278, 1426881987, 1925078388, 2162078206, 2614888103,
   3248222580, 3835390401, 4022224774, 264347078, 604807628,
   770255983, 1249150122, 1555081692, 1996064986, 2554220882,
   2821834349, 2952996808, 3210313671, 3336571891, 3584528711,
   113926993, 338241895, 666307205, 773529912, 1294757372,
   1396182291, 1695183700, 1986661051, 2177026350, 2456956037,
   2730485921, 2820302411, 3259730800, 3345764771, 3516065817,
   3600352804, 4094571909, 275423344, 430227734, 506948616,
   659060556, 883997877, 958139571, 1322822218, 1537002063,
   1747873779, 1955562222, 2024104815, 2227730452, 2361852424,
   2428436474, 2756734187, 3204031479, 3329325298]

/-- SHA-256 initial hash state (FIPS 180-4), written in decimal. -/
def H256 : List Nat :=
  [1779033703, 3144134277, 1013904242, 2773480762,
   1359893119, 2600822924, 528734635, 1541459225]

/-- Choice function of the compression loop. -/
def sha2ch (e f g : Nat) : Nat := (e &&& f) ^^^ (not32 e &&& g)

/-- Majority function of the compression loop. -/
def sha2maj (a b c : Nat) : Nat := (a &&& b) ^^^ (a &&& c) ^^^ (b &&& c)

/-- Big sigma-0 of the compression loop. -/
def bigSig0 (a : Nat) : Nat := rotr32 2 a ^^^ rotr32 13 a ^^^ rotr32 22 a

/-- Big sigma-1 of the compression loop. -/
def bigSig1 (e : Nat) : Nat := rotr32 6 e ^^^ rotr32 11 e ^^^ rotr32 25 e

/-- Small sigma-0 of the message schedule. -/
def smallSig0 (x : Nat) : Nat := rotr32 7 x ^^^ rotr32 18 x ^^^ (x / 2 ^ 3)

/-- Small sigma-1 of the message schedule. -/
def smallSig1 (x : Nat) : Nat := rotr32 17 x ^^^ rotr32 19 x ^^^ (x / 2 ^ 10)

/-- The 8-byte big-endian encoding of a 64-bit length value. -/
def lenBytes (n : Nat) : List Nat :=
  [n / 2 ^ 56 % 256, n / 2 ^ 48 % 256, n / 2 ^ 40 % 256, n / 2 ^ 32 % 256,
   n / 2 ^ 24 % 256, n / 2 ^ 16 % 256, n / 2 ^ 8 % 256, n % 256]

/-- SHA-256 padding: append 0x80, zero fill to 56 mod 64, then the bit length. -/
def padMessage (msg : List Nat) : List Nat :=
  msg ++ [0x80] ++ List.replicate ((119 - msg.length % 64) % 64) 0
    ++ lenBytes (8 * msg.length)

/-- Big-endian 4-byte groups to 32-bit words. -/
def bytesToWords : List Nat → List Nat
  | b0 :: b1 :: b2 :: b3 :: rest =>
      (b0 * 2 ^ 24 + b1 * 2 ^ 16 + b2 * 2 ^ 8 + b3) :: bytesToWords rest
  | _ => []

/-- Extend a 16-word schedule by `fuel` further words. -/
def extendSchedule : Nat → List Nat → List Nat
  | 0, w => w
  | fuel + 1, w =>
      let i := w.length
      extendSchedule fuel
        (w ++ [(smallSig1 (w.getD (i - 2) 0) + w.getD (i - 7) 0
                 + smallSig0 (w.getD (i - 15) 0) + w.getD (i - 16) 0) % M32])

/-- One round of the SHA-256 compression function. -/
def sha2round (st : List Nat) (kw : Nat × Nat) : List Nat :=
  let a := st.getD 0 0
  let b := st.getD 1 0
  let c := st.getD 2 0
  let d := st.getD 3 0
  let e := st.getD 4 0
  let f := st.getD 5 0
  let g := st.getD 6 0
  let h := st.getD 7 0
  let t1 := (h + bigSig1 e + sha2ch e f g + kw.1 + kw.2) % M32
  let t2 := (bigSig0 a + sha2maj a b c) % M32
  [(t1 + t2) % M32, a, b, c, (d + t1) % M32, e, f, g]

/-- Process one 64-byte block into the running hash state. -/
def processBlock (hs : List Nat) (block : List Nat) : List Nat :=
  let w := extendSchedule 48 (bytesToWords block)
  let fin := (List.zip K256 w).foldl sha2round hs
  (List.zip hs fin).map (fun p => (p.1 + p.2) % M32)

/-- Split a padded message into `fuel` blocks of 64 bytes. -/
def splitBlocksAux : Nat → List Nat → List (List Nat)
  | 0, _ => []
  | fuel + 1, l => l.take 64 :: splitBlocksAux fuel (l.drop 64)

/-- Split a padded message into its 64-byte blocks. -/
def splitBlocks (l : List Nat) : List (List Nat) := splitBlocksAux (l.length / 64) l

/-- SHA-256 digest of a byte list, as eight 32-bit words. -/
def sha256Words (msg : List Nat) : List Nat :=
  (splitBlocks (padMessage msg)).foldl processBlock H256

/-- Lowercase hex digits, as in Python's hexdigest. -/
def hexDigitChar (n : Nat) : Char :=
  if n < 10 then Char.ofNat (48 + n) else Char.ofNat (87 + n)

/-- Eight hex characters of one 32-bit word, big-endian. -/
def wordHex (w : Nat) : List Char :=
  [hexDigitChar (w / 16 ^ 7 % 16), hexDigitChar (w / 16 ^ 6 % 16),
   hexDigitChar (w / 16 ^ 5 % 16), hexDigitChar (w / 16 ^ 4 % 16),
   hexDigitChar (w / 16 ^ 3 % 16), hexDigitChar (w / 16 ^ 2 % 16),
   hexDigitChar (w / 16 % 16), hexDigitChar (w % 16)]

/-- Hex digest string of a word list. -/
def hexDigest (ws : List Nat) : String :=
  ⟨ws.foldl (fun acc w => acc ++ wordHex w) []⟩

/-- The `.hexdigest()` of `hashlib.sha256(msg)`. -/
def sha256hex (msg : List Nat) : String := hexDigest (sha256Words msg)

/-! ## Python string helpers used by `CacheManager._generate_key` -/

/-- Python `str` whitespace (the six ASCII whitespace characters). -/
def isPySpace (c : Char) : Bool :=
  c = ' ' || c = '\t' || c = '\n' || c = '\r' || c = '\x0b' || c = '\x0c'

/-- Python `str.lower`, restricted to the ASCII range used by the embedding. -/
def pyLowerChar (c : Char) : Char :=
  if 'A' ≤ c && c ≤ 'Z' then Char.ofNat (c.toNat + 32) else c

/-- Python `str.lower` on a string. -/
def pyLower (s : String) : String := ⟨s.data.map pyLowerChar⟩

/-- Python `str.strip()` (no argument): drop leading and trailing whitespace. -/
def pyStrip (s : String) : String :=
  ⟨((s.data.dropWhile isPySpace).reverse.dropWhile isPySpace).reverse⟩

/-- Helper for Python `str.split()`: accumulate the current word in reverse. -/
def pySplitChars : List Char → List Char → List (List Char)
  | [], cur => if cur = [] then [] else [cur.reverse]
  | c :: rest, cur =>
      if isPySpace c then
        if cur = [] then pySplitChars rest []
        else cur.reverse :: pySplitChars rest []
      else pySplitChars rest (c :: cur)

/-- Python `str.split()` (no argument): split on whitespace runs, drop empties. -/
def pySplit (s : String) : List String :=
  (pySplitChars s.data []).map (fun cs => ⟨cs⟩)

/-- Python `sep.join(xs)`. -/
def joinStr (sep : String) : List String → String
  | [] => ""
  | [x] => x
  | x :: y :: rest => x ++ sep ++ joinStr sep (y :: rest)

/-- UTF-8 encoding of one code point. -/
def utf8Char (n : Nat) : List Nat :=
  if n < 0x80 then [n]
  else if n < 0x800 then [0xc0 + n / 64, 0x80 + n % 64]
  else if n < 0x10000 then [0xe0 + n / 4096, 0x80 + n / 64 % 64, 0x80 + n % 64]
  else [0xf0 + n / 262144, 0x80 + n / 4096 % 64, 0x80 + n / 64 % 64, 0x80 + n % 64]

/-- Python `s.encode("utf-8")`. -/
def utf8Bytes (s : String) : List Nat :=
  s.data.foldl (fun acc c => acc ++ utf8Char c.toNat) []

/-! ## `CacheManager` (src/utils/cache_manager.py) -/

/-- Normalization inside `_generate_key`:
`" ".join(patient_profile.strip().lower().split())`. -/
def normalizeProfile (p : String) : String := joinStr " " (pySplit (pyLower (pyStrip p)))

/-- `CacheManager._generate_key`: SHA-256 hexdigest of the normalized profile. -/
def generate_key (p : String) : String := sha256hex (utf8Bytes (normalizeProfile p))

/-- The composite cache key `f"{key}_{cache_type}"` used by get/set. -/
def cacheKeyFor (p tag : String) : String := generate_key p ++ "_" ++ tag

/-! ## JSON values and Python dict / truthiness semantics -/

/-- JSON values as produced by `json.loads`. -/
inductive JVal where
  | jnull : JVal
  | jbool : Bool → JVal
  | jnum : ℚ → JVal
  | jstr : String → JVal
  | jarr : List JVal → JVal
  | jobj : List (String × JVal) → JVal

/-- Python dict lookup `d[k]` / `k in d` on an association list. -/
def dictGet {α : Type} : List (String × α) → String → Option α
  | [], _ => none
  | (k1, v1) :: rest, k => if k1 = k then some v1 else dictGet rest k

/-- Python dict assignment `d[k] = v`: overwrite in place, else append. -/
def dictSet {α : Type} : List (String × α) → String → α → List (String × α)
  | [], k, v => [(k, v)]
  | (k1, v1) :: rest, k, v =>
      if k1 = k then (k, v) :: rest else (k1, v1) :: dictSet rest k v

/-- Python `del d[k]` (first occurrence). -/
def dictDel {α : Type} : List (String × α) → String → List (String × α)
  | [], _ => []
  | (k1, v1) :: rest, k => if k1 = k then rest else (k1, v1) :: dictDel rest k

/-- Python truthiness of a JSON value (`if cached_result:`). -/
def pyTruthy : JVal → Bool
  | .jnull => false
  | .jbool b => b
  | .jnum q => decide (q ≠ 0)
  | .jstr s => decide (s ≠ "")
  | .jarr xs => !xs.isEmpty
  | .jobj kvs => !kvs.isEmpty

/-- Lookup inside a JSON object; `none` when the key is absent or the value
is not an object. -/
def jobjGet : JVal → String → Option JVal
  | .jobj kvs, k => dictGet kvs k
  | _, _ => none

/-! ## `CacheManager` store, get and set -/

/-- One cache entry. `timestamp` is `none` when the field is missing or does
not parse in `fromisoformat` (both make `_is_cache_valid` return False). The
`key`/`cache_type` bookkeeping fields play no role in lookup and are omitted. -/
structure CacheEntry where
  timestamp : Option ℚ
  result : JVal

/-- The in-memory store `self.cache_data`. -/
structure CacheState where
  data : List (String × CacheEntry)

/-- The empty store. -/
def emptyCache : CacheState := ⟨[]⟩

/-- `CacheManager._is_cache_valid`: a timestamp exists and
`now - timestamp < timedelta(days=max_age_days)`. -/
def is_cache_valid (maxAge now : ℚ) (e : CacheEntry) : Bool :=
  match e.timestamp with
  | none => false
  | some ts => decide (now - ts < maxAge)

/-- `CacheManager.get_cached_result`: look up `f"{key}_{cache_type}"`, return
the stored result when valid, delete the entry and return `None` when present
but expired, return `None` when absent. Returns the result together with the
store after the call. -/
def get_cached_result (st : CacheState) (maxAge now : ℚ) (text tag : String) :
    Option JVal × CacheState :=
  let ck := cacheKeyFor text tag
  match dictGet st.data ck with
  | some e =>
      if is_cache_valid maxAge now e then (some e.result, st)
      else (none, ⟨dictDel st.data ck⟩)
  | none => (none, st)

/-- `CacheManager.set_cached_result`: store the result under
`f"{key}_{cache_type}"` with the current timestamp. -/
def set_cached_result (st : CacheState) (text tag : String) (result : JVal)
    (now : ℚ) : CacheState :=
  ⟨dictSet st.data (cacheKeyFor text tag) ⟨some now, result⟩⟩

/-- A store whose keys are distinct, as Python dict keys always are. -/
def KeysNodup (st : CacheState) : Prop := (st.data.map Prod.fst).Nodup

/-! ## `KeywordExtractor.extract_keywords` -/

/-- The all-empty fallback returned on `json.JSONDecodeError`. -/
def defaultExtraction : JVal :=
  .jobj [("conditions", .jarr []), ("interventions", .jarr []),
         ("keywords", .jarr []), ("biomarkers", .jarr []),
         ("demographics", .jarr [])]

/-- The declared category keys of the extraction schema. -/
def categoryKeys : List String :=
  ["conditions", "interventions", "keywords", "biomarkers", "demographics"]

/-- `KeywordExtractor.extract_keywords`. `parsed` is the outcome of
`json.loads` on the LLM response (`none` = `JSONDecodeError`). Returns the
result, whether the LLM was invoked, and the store after the call. -/
def extract_keywords (useCache : Bool) (st : CacheState) (maxAge now : ℚ)
    (profile : String) (parsed : Option JVal) : JVal × Bool × CacheState :=
  let hit : Option JVal × CacheState :=
    if useCache then get_cached_result st maxAge now profile "extraction"
    else (none, st)
  let st1 := hit.2
  let llm : JVal × Bool × CacheState :=
    match parsed with
    | some v =>
        (v, true,
         if useCache then set_cached_result st1 profile "extraction" v now
         else st1)
    | none => (defaultExtraction, true, st1)
  match hit.1 with
  | some v => if pyTruthy v then (v, false, st1) else llm
  | none => llm

/-! ## `KeywordEnricher.enrich_keywords` -/

/-- Values of the keyword dict handed to `build_search_query` /
`enrich_keywords`. A value is a list of terms, a single string, an enrichment
dict with optional `synonyms` / `related_terms` lists, or something else. -/
inductive DVal where
  | dlist : List String → DVal
  | dstr : String → DVal
  | ddict : Option (List String) → Option (List String) → DVal
  | dother : DVal
deriving DecidableEq

/-- The flattening loop of `enrich_keywords`: `extend` every value that is a
list, in order, without deduplication. -/
def flattenKeywords (kw : List (String × DVal)) : List String :=
  kw.foldl
    (fun acc kv => match kv.2 with | .dlist xs => acc ++ xs | _ => acc) []

/-- `KeywordEnricher.enrich_keywords`. `parsed` is the outcome of `json.loads`
on the LLM response. Returns the result, whether the LLM was invoked, the
`cache_key` text computed from the flattened keywords (`none` when the
function returned before computing it), and the store after the call. -/
def enrich_keywords (useCache : Bool) (st : CacheState) (maxAge now : ℚ)
    (kw : List (String × DVal)) (parsed : Option JVal) :
    JVal × Bool × Option String × CacheState :=
  let allKeywords := flattenKeywords kw
  if allKeywords = [] then (.jobj [], false, none, st)
  else
    let keywordsText := joinStr ", " allKeywords
    let hit : Option JVal × CacheState :=
      if useCache then get_cached_result st maxAge now keywordsText "enrichment"
      else (none, st)
    let st1 := hit.2
    let llm : JVal × Bool × Option String × CacheState :=
      match parsed with
      | some v =>
          (v, true, some keywordsText,
           if useCache then set_cached_result st1 keywordsText "enrichment" v now
           else st1)
      | none => (.jobj [], true, some keywordsText, st1)
    match hit.1 with
    | some v => if pyTruthy v then (v, false, some keywordsText, st1) else llm
    | none => llm

/-! ## `ClinicalTrialSearcher.build_search_query` -/

/-- The `keywords` argument of `build_search_query`: a dict, a list of
strings, or some other value. -/
inductive KeywordsInput where
  | kdict : List (String × DVal) → KeywordsInput
  | klist : List String → KeywordsInput
  | kother : KeywordsInput

/-- The Elasticsearch queries this module emits. Field lists carry their
boosts (`"brief_title^3"` becomes `("brief_title", 3)`). -/
inductive Query where
  | matchAll : Query
  | multiMatch : String → List (String × ℚ) → Query
  | boolQuery : List Query → List Query → Nat → Query

/-- Primary multi-match fields with boosts, as written in the source. -/
def primaryFields : List (String × ℚ) :=
  [("brief_title", 3), ("official_title", 5 / 2), ("conditions", 2),
   ("interventions", 2), ("keywords", 3 / 2)]

/-- Secondary multi-match fields with boosts, as written in the source. -/
def secondaryFields : List (String × ℚ) :=
  [("brief_title", 3 / 2), ("official_title", 6 / 5), ("conditions", 1),
   ("interventions", 1), ("keywords", 4 / 5)]

/-- The raw primary and secondary term lists gathered by the two branches of
`build_search_query` before cleaning. In enriched mode every dict key is a
primary term and the `synonyms` / `related_terms` of dict-valued entries are
secondary terms; otherwise list values are extended and string values
appended, and a plain list is taken as the primary terms. -/
def rawTerms (kw : KeywordsInput) (useEnriched : Bool) : List String × List String :=
  if useEnriched then
    match kw with
    | .kdict kvs =>
        kvs.foldl
          (fun acc kv =>
            (acc.1 ++ [kv.1],
             match kv.2 with
             | .ddict syn rel => acc.2 ++ syn.getD [] ++ rel.getD []
             | _ => acc.2))
          ([], [])
    | _ => ([], [])
  else
    (match kw with
     | .kdict kvs =>
         kvs.foldl
           (fun acc kv =>
             match kv.2 with
             | .dlist xs => acc ++ xs
             | .dstr s => acc ++ [s]
             | _ => acc)
           []
     | .klist xs => xs
     | .kother => [], [])

/-- Keep the first occurrence of each string, given the already-seen set. -/
def dedupAux : List String → List String → List String
  | [], _ => []
  | x :: xs, seen =>
      if x ∈ seen then dedupAux xs seen else x :: dedupAux xs (x :: seen)

/-- Deduplicate keeping first occurrences. Models
`list(set(...))`, whose enumeration order Python leaves unspecified; the
claims proved below do not depend on the order chosen. -/
def dedupFirst (xs : List String) : List String := dedupAux xs []

/-- `list(set([term.strip() for term in terms if term.strip()]))`. -/
def cleanTerms (terms : List String) : List String :=
  dedupFirst ((terms.map pyStrip).filter (fun t => t ≠ ""))

/-- `ClinicalTrialSearcher.build_search_query`. -/
def build_search_query (kw : KeywordsInput) (useEnriched : Bool) : Query :=
  let raw := rawTerms kw useEnriched
  let primary := cleanTerms raw.1
  let secondary := cleanTerms raw.2
  if primary = [] then .matchAll
  else
    let primaryQuery := Query.multiMatch (joinStr " " primary) primaryFields
    if secondary ≠ [] then
      .boolQuery [primaryQuery]
        [Query.multiMatch (joinStr " " secondary) secondaryFields] 0
    else primaryQuery

/-! ## `ClinicalTrialSearcher.search_trials` index guard -/

/-- `ClinicalTrialSearcher.check_index_exists`: the ES `indices.exists`
response, with any exception (`none`) logged and turned into `False`. -/
def check_index_exists (resp : Option Bool) : Bool := resp.getD false

/-! ## `ClinicalTrialSearcher.format_search_results` -/

/-- The `_source` of one Elasticsearch hit, restricted to the requested
fields. `none` models an absent key (`.get` returns `None`). -/
structure HitSource where
  nct_id : Option String
  brief_title : Option String
  official_title : Option String
  conditions : Option (List String)
  interventions : Option (List String)
  keywords : Option (List String)
  brief_summary : Option String

/-- One raw hit: its `_source` and its optional `_score`. -/
structure Hit where
  source : HitSource
  score : Option ℚ

/-- One formatted trial produced by `format_search_results`. -/
structure FormattedTrial where
  nct_id : Option String
  title : Option String
  conditions : List String
  interventions : List String
  keywords : List String
  summary : Option String
  score : ℚ

/-- Python `a or b` on optional strings: a present non-empty string wins,
anything falsy (`None` or `""`) falls through to `b`. -/
def pyOrStr (a b : Option String) : Option String :=
  match a with
  | some s => if s ≠ "" then some s else b
  | none => b

/-- The body of the loop in `format_search_results`, applied to one hit. -/
def formatTrial (hit : Hit) : FormattedTrial :=
  { nct_id := hit.source.nct_id
    title := pyOrStr hit.source.brief_title hit.source.official_title
    conditions := hit.source.conditions.getD []
    interventions := hit.source.interventions.getD []
    keywords := hit.source.keywords.getD []
    summary := hit.source.brief_summary
    score := hit.score.getD 0 }

/-- `ClinicalTrialSearcher.format_search_results` over the hit list. -/
def format_search_results (hits : List Hit) : List FormattedTrial :=
  hits.map formatTrial

/-- `ClinicalTrialSearcher.search_trials`: raise when the index is missing
(Python: `ValueError(f"Elasticsearch index '{index_name}' does not exist")`,
modelled without the quote characters), otherwise run the ES search on the
built query. `esSearch` stands for `self.es.search`; a `.error` models a
raised exception. -/
def search_trials (indexName : String) (indexResp : Option Bool)
    (kw : KeywordsInput) (useEnriched : Bool)
    (esSearch : Query → Except String (List Hit)) : Except String (List Hit) :=
  if check_index_exists indexResp then esSearch (build_search_query kw useEnriched)
  else .error ("Elasticsearch index " ++ indexName ++ " does not exist")

/-! ## Helper lemmas about the dict model -/

/-- Lookup of a key that no pair carries is `none`. -/
theorem dictGet_eq_none_of_not_mem {α : Type} (d : List (String × α)) (k : String)
    (h : k ∉ d.map Prod.fst) : dictGet d k = none := by
  induction d with
  | nil => rfl
  | cons hd tl ih =>
      obtain ⟨k1, v1⟩ := hd
      simp only [List.map_cons, List.mem_cons] at h
      push_neg at h
      simp [dictGet, Ne.symm h.1, ih h.2]

/-- Assignment followed by lookup of the same key. -/
theorem dictGet_dictSet_self {α : Type} (d : List (String × α)) (k : String) (v : α) :
    dictGet (dictSet d k v) k = some v := by
  induction d with
  | nil => simp [dictSet, dictGet]
  | cons hd tl ih =>
      obtain ⟨k1, v1⟩ := hd
      by_cases h : k1 = k
      · simp [dictSet, dictGet, h]
      · simp [dictSet, dictGet, h, ih]

/-- Deleting a key from a dict with distinct keys removes it entirely. -/
theorem dictGet_dictDel_self {α : Type} (d : List (String × α)) (k : String)
    (h : (d.map Prod.fst).Nodup) : dictGet (dictDel d k) k = none := by
  induction d with
  | nil => rfl
  | cons hd tl ih =>
      obtain ⟨k1, v1⟩ := hd
      simp only [List.map_cons, List.nodup_cons] at h
      by_cases hk : k1 = k
      · subst hk
        simpa [dictDel] using dictGet_eq_none_of_not_mem tl k1 h.1
      · simp [dictDel, hk, dictGet, ih h.2]

/-- A fresh `set_cached_result` is immediately visible to
`get_cached_result` while it is within the max age. -/
theorem get_after_set (st : CacheState) (text tag : String) (payload : JVal)
    (t now maxAge : ℚ) (h : now - t < maxAge) :
    get_cached_result (set_cached_result st text tag payload t) maxAge now text tag =
      (some payload, set_cached_result st text tag payload t) := by
  simp [get_cached_result, set_cached_result, dictGet_dictSet_self,
    is_cache_valid, h]

/-! ## C3 -/

/-- C3: for any two profile texts that normalize identically (equal after
whitespace collapsing and case folding) and any operation tag, the derived
cache keys coincide, and the key is the SHA-256 hex digest of the normalized
text followed by an underscore and the tag. -/
theorem cache_key_normalization_invariant (t1 t2 tag : String)
    (h : normalizeProfile t1 = normalizeProfile t2) :
    cacheKeyFor t1 tag = cacheKeyFor t2 tag ∧
      cacheKeyFor t1 tag = sha256hex (utf8Bytes (normalizeProfile t1)) ++ "_" ++ tag := by
  constructor
  · unfold cacheKeyFor generate_key
    rw [h]
  · rfl

/-- Witness for C3 at the texts `"  Hello   WORLD "` and `"hello world"`. -/
theorem cache_key_normalization_invariant_witness :
    normalizeProfile "  Hello   WORLD " = normalizeProfile "hello world" ∧
      cacheKeyFor "  Hello   WORLD " "extraction" =
        cacheKeyFor "hello world" "extraction" := by
  have h : normalizeProfile "  Hello   WORLD " = normalizeProfile "hello world" := by
    decide
  exact ⟨h, (cache_key_normalization_invariant "  Hello   WORLD " "hello world"
    "extraction" h).1⟩

/-! ## C4 -/

/-- C4: storing a payload and immediately reading it back under the same
text and tag returns the stored payload, for any positive max age. -/
theorem cache_set_get_roundtrip (st : CacheState) (text tag : String)
    (payload : JVal) (t maxAge : ℚ) (h : 0 < maxAge) :
    (get_cached_result (set_cached_result st text tag payload t) maxAge t text tag).1 =
      some payload := by
  have hlt : t - t < maxAge := by simpa using h
  rw [get_after_set st text tag payload t t maxAge hlt]

/-- Witness for C4 at a concrete store, text, tag, payload and time. -/
theorem cache_set_get_roundtrip_witness :
    (0 : ℚ) < 30 ∧
      (get_cached_result
        (set_cached_result emptyCache "profile text" "extraction"
          (.jobj [("conditions", .jarr [.jstr "NSCLC"])]) 0) 30 0
        "profile text" "extraction").1 =
        some (.jobj [("conditions", .jarr [.jstr "NSCLC"])]) :=
  ⟨by norm_num,
   cache_set_get_roundtrip emptyCache "profile text" "extraction"
     (.jobj [("conditions", .jarr [.jstr "NSCLC"])]) 0 30 (by norm_num)⟩

/-! ## C5 -/

/-- C5: when every entry stored under the derived key fails the validity
check (expired timestamp, missing or unparseable timestamp — and vacuously
when the key is absent), `get_cached_result` returns `None` and the key is no
longer present in the store afterwards; no exception is involved. -/
theorem cache_expired_entry_lazy_eviction (st : CacheState) (maxAge now : ℚ)
    (text tag : String) (hnd : KeysNodup st)
    (hexp : ∀ e, dictGet st.data (cacheKeyFor text tag) = some e →
      is_cache_valid maxAge now e = false) :
    (get_cached_result st maxAge now text tag).1 = none ∧
      dictGet (get_cached_result st maxAge now text tag).2.data
        (cacheKeyFor text tag) = none := by
  unfold get_cached_result
  cases hdg : dictGet st.data (cacheKeyFor text tag) with
  | none => simp [hdg]
  | some e =>
      simp [hdg, hexp e hdg, dictGet_dictDel_self st.data (cacheKeyFor text tag) hnd]

/-- Witness for C5: an entry written at time 0 read back at time 100 with a
30-day max age is reported as a miss and evicted. -/
theorem cache_expired_entry_lazy_eviction_witness :
    (get_cached_result
        (set_cached_result emptyCache "profile text" "extraction"
          (.jobj [("conditions", .jarr [.jstr "NSCLC"])]) 0) 30 100
        "profile text" "extraction").1 = none ∧
      dictGet
        (get_cached_result
          (set_cached_result emptyCache "profile text" "extraction"
            (.jobj [("conditions", .jarr [.jstr "NSCLC"])]) 0) 30 100
          "profile text" "extraction").2.data
        (cacheKeyFor "profile text" "extraction") = none := by
  apply cache_expired_entry_lazy_eviction
  · simp [KeysNodup, set_cached_result, emptyCache, dictSet]
  · intro e he
    simp only [set_cached_result, emptyCache, dictSet, dictGet, if_pos] at he
    cases he
    simp [is_cache_valid]
    norm_num

/-! ## C6 -/

/-- C6 (counterexample): the LLM response `"{}"` parses successfully to the
empty object, which `extract_keywords` returns verbatim — the declared
category key `"conditions"` is absent from the output, so the claim that the
output always contains every category key fails. -/
theorem extract_keywords_missing_key_counterexample :
    (extract_keywords false emptyCache 30 0 "profile" (some (.jobj []))).1 =
        .jobj [] ∧
      jobjGet (extract_keywords false emptyCache 30 0 "profile"
        (some (.jobj []))).1 "conditions" = none := by
  constructor <;> rfl

/-- C6 (amended): when the LLM response fails to parse as JSON and there is
no truthy cached result, `extract_keywords` returns, without raising, the
default mapping in which every declared category key maps to an empty list;
when the response parses, the parsed mapping is returned verbatim and may
omit category keys. -/
theorem extract_keywords_parse_failure_defaults (useCache : Bool)
    (st : CacheState) (maxAge now : ℚ) (profile : String) (parsed : Option JVal)
    (hmiss : ∀ v,
      (if useCache then get_cached_result st maxAge now profile "extraction"
       else (none, st)).1 = some v → pyTruthy v = false) :
    (extract_keywords useCache st maxAge now profile parsed).1 =
        (match parsed with | some v => v | none => defaultExtraction) ∧
      ∀ k, k ∈ categoryKeys → jobjGet defaultExtraction k = some (.jarr []) := by
  constructor
  · unfold extract_keywords
    cases hh : (if useCache then get_cached_result st maxAge now profile "extraction"
        else (none, st)).1 with
    | none => cases parsed <;> simp [hh]
    | some v =>
        have hv := hmiss v hh
        cases parsed <;> simp [hh, hv]
  · intro k hk
    fin_cases hk <;> rfl

/-- Witness for C6 (amended) at a cache-free parse failure. -/
theorem extract_keywords_parse_failure_defaults_witness :
    (extract_keywords false emptyCache 30 0 "profile" none).1 =
        defaultExtraction ∧
      jobjGet defaultExtraction "conditions" = some (.jarr []) := by
  have h := extract_keywords_parse_failure_defaults false emptyCache 30 0
    "profile" none (by intro v hv; simp at hv)
  exact ⟨h.1, h.2 "conditions" (by decide)⟩

/-! ## C7 -/

/-- C7 (counterexample): the flattening loop of `enrich_keywords` does not
deduplicate — a term occurring in two categories occurs twice in the
flattened list and twice in the cache-key text. -/
theorem enrich_flatten_not_dedup_counterexample :
    flattenKeywords
        [("conditions", .dlist ["NSCLC"]), ("keywords", .dlist ["NSCLC"])] =
      ["NSCLC", "NSCLC"] ∧
    ¬ (flattenKeywords
        [("conditions", .dlist ["NSCLC"]), ("keywords", .dlist ["NSCLC"])]).Nodup ∧
    (enrich_keywords false emptyCache 30 0
        [("conditions", .dlist ["NSCLC"]), ("keywords", .dlist ["NSCLC"])]
        (some (.jobj []))).2.2.1 = some "NSCLC, NSCLC" :=
  ⟨rfl, by decide, rfl⟩

/-- C7 (amended): `enrich_keywords` flattens all list-valued categories into
one term list in order, without deduplication; when that list is empty it
returns the empty mapping immediately with no LLM call and no cache-key text;
otherwise its cache key is derived from the comma-joined flattened term text. -/
theorem enrich_keywords_flatten_empty_and_cache_key (useCache : Bool)
    (st : CacheState) (maxAge now : ℚ) (kw : List (String × DVal))
    (parsed : Option JVal) :
    (flattenKeywords kw = [] →
      enrich_keywords useCache st maxAge now kw parsed =
        (.jobj [], false, none, st)) ∧
    (flattenKeywords kw ≠ [] →
      (enrich_keywords useCache st maxAge now kw parsed).2.2.1 =
        some (joinStr ", " (flattenKeywords kw))) := by
  constructor
  · intro h
    simp [enrich_keywords, h]
  · intro h
    simp only [enrich_keywords, if_neg h]
    cases hh : (if useCache then
        get_cached_result st maxAge now (joinStr ", " (flattenKeywords kw))
          "enrichment"
      else (none, st)).1 with
    | none => cases parsed <;> simp [hh]
    | some v => cases hv : pyTruthy v <;> cases parsed <;> simp [hh, hv]

/-- Witness for C7 (amended): an all-non-list input returns the empty mapping
immediately, and a two-term input derives its cache key from the joined text. -/
theorem enrich_keywords_flatten_empty_and_cache_key_witness :
    enrich_keywords true emptyCache 30 0 [("conditions", .dother)]
        (some (.jobj [])) = (.jobj [], false, none, emptyCache) ∧
      (enrich_keywords false emptyCache 30 0
          [("conditions", .dlist ["anemia", "fatigue"])] none).2.2.1 =
        some (joinStr ", "
          (flattenKeywords [("conditions", DVal.dlist ["anemia", "fatigue"])])) :=
  ⟨(enrich_keywords_flatten_empty_and_cache_key true emptyCache 30 0
      [("conditions", .dother)] (some (.jobj []))).1 rfl,
   (enrich_keywords_flatten_empty_and_cache_key false emptyCache 30 0
      [("conditions", .dlist ["anemia", "fatigue"])] none).2 (by decide)⟩

/-! ## C10 -/

/-- C10: a cached payload that is the empty mapping is truthiness-tested and
treated as a cache miss — both `extract_keywords` and `enrich_keywords`
invoke the LLM instead of returning the cached value. -/
theorem empty_dict_cached_payload_is_miss (maxAge now : ℚ) :
    (∀ st profile parsed,
      (get_cached_result st maxAge now profile "extraction").1 =
          some (.jobj []) →
      (extract_keywords true st maxAge now profile parsed).2.1 = true) ∧
    (∀ st kw parsed,
      (get_cached_result st maxAge now (joinStr ", " (flattenKeywords kw))
          "enrichment").1 = some (.jobj []) →
      flattenKeywords kw ≠ [] →
      (enrich_keywords true st maxAge now kw parsed).2.1 = true) := by
  constructor
  · intro st profile parsed hc
    unfold extract_keywords
    cases parsed <;> simp [hc, pyTruthy]
  · intro st kw parsed hc hne
    simp only [enrich_keywords, if_neg hne]
    cases parsed <;> simp [hc, pyTruthy]

/-- Witness for C10: stores holding a valid `{}` payload under the looked-up
key still lead to an LLM call in both components. -/
theorem empty_dict_cached_payload_is_miss_witness :
    (extract_keywords true
        (set_cached_result emptyCache "another profile" "extraction" (.jobj []) 0)
        30 0 "another profile" (some (.jobj [("conditions", .jarr [])]))).2.1 =
      true ∧
    (enrich_keywords true
        (set_cached_result emptyCache "anemia, fatigue" "enrichment" (.jobj []) 0)
        30 0 [("conditions", .dlist ["anemia", "fatigue"])] none).2.1 = true := by
  have hget1 : (get_cached_result
      (set_cached_result emptyCache "another profile" "extraction" (.jobj []) 0)
      30 0 "another profile" "extraction").1 = some (.jobj []) := by
    rw [get_after_set _ _ _ _ _ _ _ (by norm_num : (0 : ℚ) - 0 < 30)]
  have hget2 : (get_cached_result
      (set_cached_result emptyCache "anemia, fatigue" "enrichment" (.jobj []) 0)
      30 0 (joinStr ", "
        (flattenKeywords [("conditions", DVal.dlist ["anemia", "fatigue"])]))
      "enrichment").1 = some (.jobj []) := by
    have hj : joinStr ", "
        (flattenKeywords [("conditions", DVal.dlist ["anemia", "fatigue"])]) =
        "anemia, fatigue" := by decide
    rw [hj, get_after_set _ _ _ _ _ _ _ (by norm_num : (0 : ℚ) - 0 < 30)]
  exact ⟨(empty_dict_cached_payload_is_miss 30 0).1 _ _ _ hget1,
    (empty_dict_cached_payload_is_miss 30 0).2 _ _ _ hget2 (by decide)⟩

/-! ## C1 and C2: the query builder -/

/-- Deduplication of a non-empty list is non-empty. -/
theorem dedupFirst_ne_nil (xs : List String) (h : xs ≠ []) : dedupFirst xs ≠ [] := by
  cases xs with
  | nil => exact absurd rfl h
  | cons x xs => simp [dedupFirst, dedupAux]

/-- A term whose strip is non-empty survives cleaning. -/
theorem cleanTerms_ne_nil (ts : List String) (h : ∃ t ∈ ts, pyStrip t ≠ "") :
    cleanTerms ts ≠ [] := by
  obtain ⟨t, ht, hst⟩ := h
  apply dedupFirst_ne_nil
  intro hnil
  have hmem : pyStrip t ∈ (ts.map pyStrip).filter (fun x => x ≠ "") := by
    simp only [List.mem_filter, List.mem_map, decide_eq_true_eq]
    exact ⟨⟨t, ht, rfl⟩, hst⟩
  rw [hnil] at hmem
  exact absurd hmem (List.not_mem_nil _)

/-- C1: on an enriched input with at least one non-blank primary term and at
least one non-blank secondary term, the built query is a bool query whose
MUST clause multi-matches the primary terms over the primary field table and
whose SHOULD clause multi-matches the secondary terms over the secondary
field table, and on every field name the two tables share, the primary boost
strictly exceeds the secondary boost. -/
theorem build_query_primary_boosts_dominate (kw : KeywordsInput)
    (hp : ∃ t ∈ (rawTerms kw true).1, pyStrip t ≠ "")
    (hs : ∃ t ∈ (rawTerms kw true).2, pyStrip t ≠ "") :
    build_search_query kw true =
      .boolQuery
        [.multiMatch (joinStr " " (cleanTerms (rawTerms kw true).1)) primaryFields]
        [.multiMatch (joinStr " " (cleanTerms (rawTerms kw true).2)) secondaryFields]
        0 ∧
      ∀ p ∈ primaryFields, ∀ q ∈ secondaryFields, p.1 = q.1 → q.2 < p.2 := by
  constructor
  · have h1 := cleanTerms_ne_nil _ hp
    have h2 := cleanTerms_ne_nil _ hs
    simp [build_search_query, h1, h2]
  · intro p hp q hq hpq
    fin_cases hp <;> fin_cases hq <;> simp_all <;> norm_num

/-- Witness for C1 at primary `["NSCLC"]` with secondary synonym
`["Non-Small Cell Lung Cancer"]`. -/
theorem build_query_primary_boosts_dominate_witness :
    build_search_query
        (.kdict [("NSCLC", .ddict (some ["Non-Small Cell Lung Cancer"]) none)])
        true =
      .boolQuery
        [.multiMatch (joinStr " " (cleanTerms (rawTerms
          (.kdict [("NSCLC", .ddict (some ["Non-Small Cell Lung Cancer"]) none)])
          true).1)) primaryFields]
        [.multiMatch (joinStr " " (cleanTerms (rawTerms
          (.kdict [("NSCLC", .ddict (some ["Non-Small Cell Lung Cancer"]) none)])
          true).2)) secondaryFields] 0 ∧
      ∀ p ∈ primaryFields, ∀ q ∈ secondaryFields, p.1 = q.1 → q.2 < p.2 :=
  build_query_primary_boosts_dominate
    (.kdict [("NSCLC", .ddict (some ["Non-Small Cell Lung Cancer"]) none)])
    (by decide) (by decide)

/-- C2: whenever the cleaned primary term list is empty, the built query is
the match-everything fallback, in both enriched and plain mode; the builder
is total, so no exception is possible. -/
theorem build_query_empty_primary_matches_all (kw : KeywordsInput) (ue : Bool)
    (h : cleanTerms (rawTerms kw ue).1 = []) :
    build_search_query kw ue = .matchAll := by
  simp [build_search_query, h]

/-- Witness for C2: empty primary and empty secondary terms, in enriched and
in plain mode, yield the match-all query. -/
theorem build_query_empty_primary_matches_all_witness :
    build_search_query (.kdict []) true = .matchAll ∧
      build_search_query (.klist []) false = .matchAll :=
  ⟨build_query_empty_primary_matches_all (.kdict []) true rfl,
   build_query_empty_primary_matches_all (.klist []) false rfl⟩

/-! ## C8 -/

/-- C8: when the existence check reports the index missing (including when
the check itself errored), `search_trials` surfaces an error naming the
index and never returns a result set — in particular not an empty one. -/
theorem search_trials_missing_index_errors (indexName : String)
    (indexResp : Option Bool) (kw : KeywordsInput) (ue : Bool)
    (esSearch : Query → Except String (List Hit))
    (h : check_index_exists indexResp = false) :
    search_trials indexName indexResp kw ue esSearch =
        .error ("Elasticsearch index " ++ indexName ++ " does not exist") ∧
      ∀ hits, search_trials indexName indexResp kw ue esSearch ≠ .ok hits := by
  have herr : search_trials indexName indexResp kw ue esSearch =
      .error ("Elasticsearch index " ++ indexName ++ " does not exist") := by
    simp [search_trials, h]
  exact ⟨herr, fun hits hok => by rw [herr] at hok; exact Except.noConfusion hok⟩

/-- Witness for C8 at a concrete missing index. -/
theorem search_trials_missing_index_errors_witness :
    search_trials "clinical_trials" (some false) (.klist ["NSCLC"]) false
        (fun _ => .ok []) =
      .error ("Elasticsearch index " ++ "clinical_trials" ++ " does not exist") ∧
      ∀ hits, search_trials "clinical_trials" (some false) (.klist ["NSCLC"])
        false (fun _ => .ok []) ≠ .ok hits :=
  search_trials_missing_index_errors "clinical_trials" (some false)
    (.klist ["NSCLC"]) false (fun _ => .ok []) rfl

/-! ## C9 -/

/-- C9 (counterexample): a hit whose `brief_title` is present as the empty
string does not keep that title — Python's `or` falls through to
`official_title`, so the claim that a present `brief_title` is always used
fails. -/
theorem format_title_empty_brief_counterexample :
    (⟨⟨none, some "", some "Official Study Title", none, none, none, none⟩,
        none⟩ : Hit).source.brief_title = some "" ∧
      (formatTrial ⟨⟨none, some "", some "Official Study Title", none, none,
        none, none⟩, none⟩).title = some "Official Study Title" ∧
      (some "Official Study Title" : Option String) ≠ some "" :=
  ⟨rfl, rfl, by decide⟩

/-- C9 (amended): the formatted title equals `brief_title` when it is
present and non-empty, and falls back to `official_title` when `brief_title`
is absent or empty (hence `None` when both are absent); the score equals the
hit's `_score` when present and `0` otherwise. -/
theorem format_title_score_fallbacks (hit : Hit) :
    ((∃ s, hit.source.brief_title = some s ∧ s ≠ "") →
      (formatTrial hit).title = hit.source.brief_title) ∧
    ((hit.source.brief_title = none ∨ hit.source.brief_title = some "") →
      (formatTrial hit).title = hit.source.official_title) ∧
    (∀ q, hit.score = some q → (formatTrial hit).score = q) ∧
    (hit.score = none → (formatTrial hit).score = 0) := by
  refine ⟨?_, ?_, ?_, ?_⟩
  · rintro ⟨s, hbs, hne⟩
    simp [formatTrial, pyOrStr, hbs, hne]
  · rintro (hb | hb) <;> simp [formatTrial, pyOrStr, hb]
  · intro q hq
    simp [formatTrial, hq]
  · intro hq
    simp [formatTrial, hq]

/-- Witness for C9 (amended) at one hit with a non-empty brief title and a
score and one hit with neither brief title nor score. -/
theorem format_title_score_fallbacks_witness :
    (formatTrial ⟨⟨some "NCT1", some "Brief", some "Official", none, none,
        none, none⟩, some 2⟩).title = some "Brief" ∧
    (formatTrial ⟨⟨some "NCT1", some "Brief", some "Official", none, none,
        none, none⟩, some 2⟩).score = 2 ∧
    (formatTrial ⟨⟨some "NCT2", none, some "Official", none, none, none,
        none⟩, none⟩).title = some "Official" ∧
    (formatTrial ⟨⟨some "NCT2", none, some "Official", none, none, none,
        none⟩, none⟩).score = 0 :=
  ⟨(format_title_score_fallbacks _).1 ⟨"Brief", rfl, by decide⟩,
   (format_title_score_fallbacks _).2.2.1 2 rfl,
   (format_title_score_fallbacks _).2.1 (Or.inl rfl),
   (format_title_score_fallbacks _).2.2.2 rfl⟩
